import Mathlib

/-
Verification of the MCP Bridge (src/mcp-bridge.js): a shallow embedding of
the subprocess supervisor, the line-framed JSON-RPC correlation engine, and
the deferred-confirmation ledger, with theorems settling the specification
claims about them.

Conventions of the embedding:
  * JS `Map` objects (`serverProcesses`, `pendingConfirmations`) are
    association lists with `Map.get`/`Map.set`/`Map.delete` modelled by
    `alLookup`/`alInsert`/`alErase`.
  * JS strings handed to `split('\n')` are modelled as `List Char`
    (a JS string is a sequence of code units; the code only ever splits,
    trims and compares them).
  * `JSON.parse` is an external library call; it is a parameter
    `parse : List Char → Option Reply` of every definition that uses it.
    A line that parses but lacks an `id` member can never match a waiter
    (in JS `undefined === requestId` is false for a string `requestId`),
    so it is folded into the `none` case of `parse`.
  * A settled JS Promise is `CallResult`: `.fulfilled` for `resolve`,
    `.rejected` for `reject`.
  * Timestamps are milliseconds as `Nat` (`Date.now()`).
-/

namespace MCPBridge

/-! ### Association-list maps (JS `Map` semantics on string keys) -/

def alLookup {α : Type} : List (String × α) → String → Option α
  | [], _ => none
  | (k, v) :: t, key => if k = key then some v else alLookup t key

def alErase {α : Type} (l : List (String × α)) (key : String) : List (String × α) :=
  l.filter (fun kv => kv.1 ≠ key)

def alInsert {α : Type} (l : List (String × α)) (key : String) (v : α) : List (String × α) :=
  alErase l key ++ [(key, v)]

/-! ### Risk levels (source lines 18-30) -/

-- const RISK_LEVEL = { LOW: 1, MEDIUM: 2, HIGH: 3 }
def RISK_LEVEL_LOW : Nat := 1

def RISK_LEVEL_MEDIUM : Nat := 2

def RISK_LEVEL_HIGH : Nat := 3

-- const RISK_LEVEL_DESCRIPTION = {...}; indexing any other key yields
-- `undefined` in JS, modelled by the empty string (only 1..3 ever occur).
def RISK_LEVEL_DESCRIPTION : Nat → String
  | 1 => "Low risk - Standard execution"
  | 2 => "Medium risk - Requires confirmation"
  | 3 => "High risk - Docker execution required"
  | _ => ""

/-! ### Launch specifications and registry records -/

structure DockerConfig where
  image : String
  volumes : Option (List String)
  network : Option String
deriving Repr, DecidableEq

structure ServerSpec where
  command : String
  args : List String
  env : List (String × String)
  riskLevel : Option Nat
  docker : Option DockerConfig
deriving Repr, DecidableEq

/-- One entry of `serverProcesses` (source lines 308-313): the spawned
process is kept only as its pid here; the stored `config` is the
(possibly docker-transformed) launch specification. -/
structure ServerInfo where
  riskLevel : Option Nat
  pid : Nat
  config : ServerSpec
deriving Repr, DecidableEq

abbrev Registry : Type := List (String × ServerInfo)

/-! ### JSON-RPC wire objects -/

/-- `params` of a JSON-RPC request: only `params.name` is ever read by the
bridge itself (source line 421); the rest is an opaque payload. -/
structure Params where
  name : Option String
  arguments : String
deriving Repr, DecidableEq

structure JsonRpcRequest where
  jsonrpc : String
  id : String
  method : String
  params : Params
deriving Repr, DecidableEq

/-- A parsed JSON-RPC reply line. `error = some m` models an `error`
member being present, with `m` its optional `message` field; `result`
is the opaque `result` member. -/
structure Reply where
  id : String
  error : Option (Option String)
  result : String
deriving Repr, DecidableEq

/-- JS `x || 'fallback'` on an optional string (empty string is falsy). -/
def jsOrElse : Option String → String → String
  | none, d => d
  | some s, d => if s = "" then d else s

/-- JS falsiness of the `confirmationId` argument (default `null`;
the empty string is also falsy, source line 400 `!confirmationId`). -/
def jsFalsy (c : Option String) : Prop := c = none ∨ c = some ""

instance (c : Option String) : Decidable (jsFalsy c) := by
  unfold jsFalsy; infer_instance

/-! ### Promise outcomes -/

structure ExecEnv where
  risk_level : Nat
  risk_description : String
  docker : Bool
  docker_image : String
deriving Repr, DecidableEq

/-- Structured deferral response returned for an unconfirmed Medium-risk
`tools/call` (source lines 414-423). -/
structure Deferral where
  requires_confirmation : Bool
  confirmation_id : String
  risk_level : Nat
  risk_description : String
  server_id : String
  method : String
  tool_name : Option String
  expires_at : Nat
deriving Repr, DecidableEq

inductive Fulfilled where
  | deferred (d : Deferral)
  | ok (result : String)
  | okHigh (result : String) (env : ExecEnv)
deriving Repr, DecidableEq

/-- The settled state of the Promise returned by `sendMCPRequest`. -/
inductive CallResult where
  | fulfilled (f : Fulfilled)
  | rejected (msg : String)
deriving Repr, DecidableEq

/-! ### Inbound line splitting (source lines 440-441)

`data.toString().split('\n').filter(line => line.trim())` -/

/-- JS `String.prototype.split('\n')`: every maximal newline-free segment,
including empty ones. -/
def splitOnNl : List Char → List (List Char)
  | [] => [[]]
  | c :: rest =>
    let r := splitOnNl rest
    if c = '\n' then [] :: r
    else
      match r with
      | [] => [[c]]
      | l :: ls => (c :: l) :: ls

/-- JS truthiness of `line.trim()`: the line has a non-whitespace char. -/
def jsTrimNonempty (l : List Char) : Bool := l.any (fun c => ¬ c.isWhitespace)

def splitLines (chunk : List Char) : List (List Char) :=
  (splitOnNl chunk).filter jsTrimNonempty

/-- The replies one `data` arrival yields: each surviving line is handed
to `JSON.parse` and parse failures are skipped (source lines 443-476).
There is no carry-over of bytes between arrivals in the source. -/
def parsedReplies (parse : List Char → Option Reply) (chunk : List Char) : List Reply :=
  (splitLines chunk).filterMap parse

/-- How a matched reply settles the caller Promise
(source lines 453-471): an `error` member rejects with
`error.message || 'Unknown error'`; otherwise, when the risk level is
explicitly High, the result is wrapped with an `execution_environment`
descriptor (`config.docker?.image || 'unknown'`); otherwise the bare
`result` member is resolved. -/
def settleReply (riskLevel : Option Nat) (docker : Option DockerConfig) (r : Reply) : CallResult :=
  match r.error with
  | some m => .rejected (jsOrElse m ("Unknown error"))
  | none =>
    if riskLevel = some RISK_LEVEL_HIGH then
      .fulfilled (.okHigh r.result
        { risk_level := RISK_LEVEL_HIGH
          risk_description := RISK_LEVEL_DESCRIPTION RISK_LEVEL_HIGH
          docker := true
          docker_image :=
            match docker with
            | some d => jsOrElse (some d.image) ("unknown")
            | none => "unknown" })
    else .fulfilled (.ok r.result)

/-! ### The confirmation ledger -/

/-- One entry of `pendingConfirmations` (source lines 406-411). -/
structure PendingInvocation where
  serverId : String
  method : String
  params : Params
  timestamp : Nat
deriving Repr, DecidableEq

abbrev Ledger : Type := List (String × PendingInvocation)

/-! ### `sendMCPRequest` (source lines 389-501)

The asynchronous wait is condensed for a single call: `chunks` is the
sequence of stdout arrivals delivered before the ten-second deadline, and
the first parsed reply whose `id` matches the freshly minted request id
settles the Promise; if none matches, the timeout rejection fires.
`freshId` stands for the one `uuidv4()` the taken branch mints, `now` for
`Date.now()`. The function returns the settled result, the request written
to the child (if any), and the updated confirmation ledger. -/
def callWithInfo (info : ServerInfo) (ledger : Ledger) (serverId method : String)
    (params : Params) (confirmationId : Option String) (freshId : String) (now : Nat)
    (parse : List Char → Option Reply) (chunks : List (List Char)) :
    CallResult × Option JsonRpcRequest × Ledger :=
  -- line 400: riskLevel !== undefined && riskLevel === MEDIUM &&
  --           method === 'tools/call' && !confirmationId
  if info.riskLevel = some RISK_LEVEL_MEDIUM ∧ method = "tools/call" ∧ jsFalsy confirmationId then
    (.fulfilled (.deferred
      { requires_confirmation := true
        confirmation_id := freshId
        -- line 417 `risk_level: riskLevel`; the branch condition pins the
        -- value to MEDIUM
        risk_level := RISK_LEVEL_MEDIUM
        risk_description := RISK_LEVEL_DESCRIPTION RISK_LEVEL_MEDIUM
        server_id := serverId
        method := method
        tool_name := params.name
        expires_at := now + 10 * 60 * 1000 }),
     none,
     alInsert ledger freshId
       { serverId := serverId, method := method, params := params, timestamp := now })
  else
    let req : JsonRpcRequest := { jsonrpc := "2.0", id := freshId, method := method, params := params }
    match (chunks.flatMap (parsedReplies parse)).find? (fun r => r.id == freshId) with
    | some r => (settleReply info.riskLevel info.config.docker r, some req, ledger)
    | none =>
      (.rejected ("Request to " ++ serverId ++ " timed out after 10 seconds"), some req, ledger)

def sendMCPRequest (reg : Registry) (ledger : Ledger) (serverId method : String)
    (params : Params) (confirmationId : Option String) (freshId : String) (now : Nat)
    (parse : List Char → Option Reply) (chunks : List (List Char)) :
    CallResult × Option JsonRpcRequest × Ledger :=
  match alLookup reg serverId with
  | none =>
    (.rejected ("Server \x27" ++ serverId ++ "\x27 not found or not connected"), none, ledger)
  | some info => callWithInfo info ledger serverId method params confirmationId freshId now parse chunks

/-! ### Per-child correlation-engine event model

One child, its registered stdout listeners (`waiters`, one per outstanding
request, in registration order), and the log of Promise settlements in the
order they happen. `registered` is membership of the child in
`serverProcesses`; `closed` records that the stdio streams have closed (no
further `data` events fire on a closed stream). -/

structure ChildState where
  waiters : List String
  log : List (String × CallResult)
  closed : Bool
  registered : Bool
deriving Repr, DecidableEq

inductive ChildEvent where
  | data (chunk : List Char)
  | timeoutFire (rid : String)
  | close (code : Int)
deriving Repr, DecidableEq

/-- Ambient per-child parameters of the handlers: the JSON parser, the
server risk level and docker block (captured at line 397), and the server
identifier (used in the timeout message). -/
structure ChildCtx where
  parse : List Char → Option Reply
  riskLevel : Option Nat
  docker : Option DockerConfig
  serverId : String

def timeoutMessage (serverId : String) : String :=
  "Request to " ++ serverId ++ " timed out after 10 seconds"

/-- One stdout `data` event (source lines 438-483): every registered
`messageHandler` scans the split lines in order; the first parsed reply
whose `id` equals that handler\x27s request id removes the handler and
settles its Promise; handlers with no matching reply stay registered.
The source keeps no bytes between arrivals. -/
def stepData (ctx : ChildCtx) (s : ChildState) (chunk : List Char) : ChildState :=
  if s.closed then s
  else
    { s with
      waiters := s.waiters.filter (fun rid =>
        ((parsedReplies ctx.parse chunk).find? (fun r => r.id == rid)).isNone)
      log := s.log ++ s.waiters.filterMap (fun rid =>
        ((parsedReplies ctx.parse chunk).find? (fun r => r.id == rid)).map
          (fun r => (rid, settleReply ctx.riskLevel ctx.docker r))) }

/-- The ten-second timer of one request (source lines 486-489): it removes
that request\x27s listener and rejects; if the Promise was already settled
(the listener is gone) the rejection is a no-op. -/
def stepTimeout (ctx : ChildCtx) (s : ChildState) (rid : String) : ChildState :=
  if rid ∈ s.waiters then
    { s with
      waiters := s.waiters.erase rid
      log := s.log ++ [(rid, .rejected (timeoutMessage ctx.serverId))] }
  else s

/-- The `close` event (source lines 352-355): the record is deleted from
`serverProcesses` and nothing else happens — no waiter is touched. -/
def stepClose (s : ChildState) : ChildState :=
  { s with closed := true, registered := false }

def stepEvent (ctx : ChildCtx) (s : ChildState) : ChildEvent → ChildState
  | .data c => stepData ctx s c
  | .timeoutFire rid => stepTimeout ctx s rid
  | .close _ => stepClose s

def runEvents (ctx : ChildCtx) (s : ChildState) : List ChildEvent → ChildState
  | [] => s
  | e :: es => runEvents ctx (stepEvent ctx s e) es

/-- Well-formedness of the engine state: request ids are unique among the
waiters (each is a fresh `uuidv4()`), a request settles at most once, and
a still-registered waiter has not settled yet. -/
def EngineInv (s : ChildState) : Prop :=
  s.waiters.Nodup ∧ (s.log.map Prod.fst).Nodup ∧
    ∀ rid ∈ s.waiters, rid ∉ s.log.map Prod.fst

instance (s : ChildState) : Decidable (EngineInv s) := by
  unfold EngineInv; infer_instance

/-! ### Command resolution (source lines 192-284, Unix path) -/

/-- The docker argv built by the High-risk transform (source lines
200-230), as the source builds it: successive pushes onto
`['run', '--rm']`. -/
def dockerArgsOf (cfg : ServerSpec) (d : DockerConfig) : List String :=
  let a0 : List String := ["run", "--rm"]
  let a1 := cfg.env.foldl (fun a kv => a ++ ["-e", kv.1 ++ "=" ++ kv.2]) a0
  let a2 :=
    match d.volumes with
    | some vs => vs.foldl (fun a v => a ++ ["-v", v]) a1
    | none => a1
  let a3 :=
    match d.network with
    | some n => a2 ++ ["--network", n]
    | none => a2
  let a4 := a3 ++ [d.image]
  let a5 := if cfg.command ≠ "npm" ∧ cfg.command ≠ "npx" then a4 ++ [cfg.command] else a4
  a5 ++ cfg.args

/-- The spawn target and argv `startServer` hands to the OS spawn
primitive. `which` models the external `which` lookup for package-runner
shims (its failure is caught and the bare name kept, source lines
264-275). The High branch with no docker block is unreachable: the guard
at source lines 181-184 raises first. -/
def resolveSpawn (cfg : ServerSpec) (which : String → Option String) : String × List String :=
  if cfg.riskLevel = some RISK_LEVEL_HIGH then
    match cfg.docker with
    | some d => ("docker", dockerArgsOf cfg d)
    | none => (cfg.command, cfg.args)
  else if cfg.command = "npx" ∨ cfg.command = "npm" then
    ((which cfg.command).getD cfg.command, cfg.args)
  else
    (cfg.command, cfg.args)

/-! ### Supervisor registry operations -/

inductive StartResult where
  | started
  | failed (msg : String)
deriving Repr, DecidableEq

/-- How the spawn of the child turns out, as observable from
`startServer`\x27s Promise: the spawn call throws synchronously (caught at
source line 362), or the child object is created but its `error` event
fires before the one-second resolve timer (source lines 347-350), or the
start succeeds. -/
inductive SpawnBehavior where
  | ok
  | syncThrow (msg : String)
  | asyncError (msg : String)
deriving Repr, DecidableEq

/-- The record `serverProcesses.set` stores at line 308: for the High
risk level the stored config carries the docker-transformed command and
argv (source lines 233-239), otherwise the config is stored as given. -/
def startedRecord (cfg : ServerSpec) (pid : Nat) (which : String → Option String) : ServerInfo :=
  { riskLevel := cfg.riskLevel
    pid := pid
    config :=
      if cfg.riskLevel = some RISK_LEVEL_HIGH then
        { cfg with command := (resolveSpawn cfg which).1, args := (resolveSpawn cfg which).2 }
      else cfg }

/-- `startServer` (source lines 171-367). The registration
`serverProcesses.set(serverId, ...)` at line 308 runs synchronously right
after `spawn` returns a child object — before the `error` event can
reject — so an asynchronous spawn failure leaves the record registered. -/
def startServer (reg : Registry) (serverId : String) (cfg : ServerSpec) (pid : Nat)
    (which : String → Option String) (sb : SpawnBehavior) : StartResult × Registry :=
  -- lines 181-184: High risk requires a docker object
  if cfg.riskLevel = some RISK_LEVEL_HIGH ∧ cfg.docker = none then
    (.failed ("Server " ++ serverId ++ " has HIGH risk level but no docker configuration"), reg)
  else
    match sb with
    | .syncThrow msg => (.failed msg, reg)
    | .asyncError msg =>
      (.failed msg, alInsert reg serverId (startedRecord cfg pid which))
    | .ok =>
      (.started, alInsert reg serverId (startedRecord cfg pid which))

/-- Whether the attempt to signal the child throws. -/
inductive KillBehavior where
  | ok
  | throws (msg : String)
deriving Repr, DecidableEq

/-- `shutdownServer` (source lines 370-386): `process.kill()` is wrapped
in try/catch whose catch only logs, and the registry delete runs
afterwards unconditionally; the function never raises. -/
def shutdownServer (reg : Registry) (serverId : String) (kb : KillBehavior) : Registry :=
  match alLookup reg serverId with
  | some _ =>
    match kb with
    | .ok => alErase reg serverId
    | .throws _ => alErase reg serverId
  | none => reg

inductive DeleteResponse where
  | notFound (msg : String)
  | disconnected
  | serverError (msg : String)
deriving Repr, DecidableEq

/-- `DELETE /servers/:serverId` (source lines 620-644). The catch branch
answering 500 can only be reached if `shutdownServer` raises, which it
never does. -/
def deleteServerRoute (reg : Registry) (serverId : String) (kb : KillBehavior) :
    DeleteResponse × Registry :=
  if (alLookup reg serverId).isNone then
    (.notFound ("Server \x27" ++ serverId ++ "\x27 not found"), reg)
  else
    (.disconnected, shutdownServer reg serverId kb)

/-! ### `POST /confirmations/:confirmationId` (source lines 698-750) -/

inductive ConfirmResponse where
  | notFound (msg : String)
  | expired (msg : String)
  | rejectedAck
  | result (f : Fulfilled)
  | serverError (msg : String)
deriving Repr, DecidableEq

/-- The confirmation route. `replay serverId method params handle` models
`await sendMCPRequest(serverId, method, params, confirmationId)`.
On a fulfilled replay the entry is deleted (line 742) before responding;
on a rejected replay the catch at lines 746-749 answers 500 and the entry
is NOT deleted. -/
def resolveConfirmation (ledger : Ledger) (cid : String) (confirm : Bool) (now : Nat)
    (replay : String → String → Params → String → CallResult) :
    ConfirmResponse × Ledger :=
  match alLookup ledger cid with
  | none =>
    (.notFound ("Confirmation \x27" ++ cid ++ "\x27 not found or expired"), ledger)
  | some p =>
    if now - p.timestamp > 10 * 60 * 1000 then
      (.expired ("Confirmation \x27" ++ cid ++ "\x27 has expired"), alErase ledger cid)
    else if ¬ confirm then
      (.rejectedAck, alErase ledger cid)
    else
      match replay p.serverId p.method p.params cid with
      | .fulfilled f => (.result f, alErase ledger cid)
      | .rejected msg => (.serverError msg, ledger)

/-! ### `GET /servers` listing entries (source lines 507-532) -/

structure ListEntry where
  id : String
  connected : Bool
  pid : Nat
  risk_level : Option Nat
  risk_description : Option String
  running_in_docker : Option Bool
deriving Repr, DecidableEq

def listEntry (id : String) (info : ServerInfo) : ListEntry :=
  { id := id
    connected := true
    pid := info.pid
    risk_level := info.riskLevel
    risk_description := info.riskLevel.map RISK_LEVEL_DESCRIPTION
    running_in_docker :=
      match info.riskLevel with
      | some n => if n = RISK_LEVEL_HIGH then some true else none
      | none => none }

/-! ### Concrete inputs used by witnesses and counterexamples -/

/-- A parser that recognises nothing (a child that emits no valid reply). -/
def noReply : List Char → Option Reply := fun _ => none

def cexReply : Reply := { id := "r", error := none, result := "1" }

/-- The serialized record the counterexample child emits, as written:
`\x7b"id":"r","result":1\x7d`. -/
def cexRecord : String := "\x7b\"id\":\"r\",\"result\":1\x7d"

/-- `JSON.parse` restricted to the strings relevant to the codec
counterexample: the complete record parses, every other string (in
particular each proper fragment of the record) fails. -/
def cexParse : List Char → Option Reply :=
  fun l => if l = cexRecord.data then some cexReply else none

def cexChunk1 : List Char := ("\x7b\"id\":\"r\",\"res").data

def cexChunk2 : List Char := ("ult\":1\x7d\n").data

def cexCtx : ChildCtx :=
  { parse := cexParse, riskLevel := none, docker := none, serverId := "s" }

/-- One outstanding request with id `r`, nothing settled, child alive. -/
def cexChild0 : ChildState :=
  { waiters := ["r"], log := [], closed := false, registered := true }

def cfgPlain : ServerSpec :=
  { command := "node", args := ["server.js"], env := [], riskLevel := none, docker := none }

def infoMedium : ServerInfo := { riskLevel := some 2, pid := 7, config := cfgPlain }

def c8Reg : Registry := [("s", infoMedium)]

def c1Params : Params := { name := some "t", arguments := "" }

def c1Pending : PendingInvocation :=
  { serverId := "s", method := "tools/call", params := c1Params, timestamp := 0 }

def c1Ledger : Ledger := [("c1", c1Pending)]

/-- Replay of a stored invocation through `sendMCPRequest` against a
registry from which the target child has vanished (it crashed after the
deferral): the engine rejects with the not-found error of line 394. -/
def c1Replay : String → String → Params → String → CallResult :=
  fun sid m p c => (sendMCPRequest [] c1Ledger sid m p (some c) ("f") 5 noReply []).1

def c9Docker : DockerConfig :=
  { image := "img", volumes := some ["h:/c"], network := some "netA" }

def c9Cfg : ServerSpec :=
  { command := "python", args := ["m.py"], env := [("K", "V"), ("L", "W")],
    riskLevel := some 3, docker := some c9Docker }

/-! ### Helper lemmas -/

theorem alLookup_erase {α : Type} (l : List (String × α)) (key : String) :
    alLookup (alErase l key) key = none := by
  induction l with
  | nil => rfl
  | cons kv t ih =>
    by_cases h : kv.1 = key
    · simpa [alErase, h] using ih
    · simpa [alErase, alLookup, h] using ih

theorem alLookup_insert {α : Type} (l : List (String × α)) (key : String) (v : α) :
    alLookup (alInsert l key v) key = some v := by
  unfold alInsert
  induction l with
  | nil => simp [alLookup]
  | cons kv t ih =>
    by_cases h : kv.1 = key
    · simpa [alErase, h] using ih
    · simpa [alErase, alLookup, h] using ih

theorem foldl_push_eq_flatMap {α β : Type} (l : List α) (f : α → List β) (acc : List β) :
    l.foldl (fun a x => a ++ f x) acc = acc ++ l.flatMap f := by
  induction l generalizing acc with
  | nil => simp
  | cons x t ih => simp [ih, List.append_assoc]

theorem settleReply_low_absent (docker : Option DockerConfig) (r : Reply) :
    settleReply (some RISK_LEVEL_LOW) docker r = settleReply none docker r := by
  obtain ⟨id, err, res⟩ := r
  cases err <;> rfl

theorem stepData_no_replies (ctx : ChildCtx) (s : ChildState) (c : List Char)
    (h : ∀ l ∈ splitLines c, ctx.parse l = none) :
    stepData ctx s c = s := by
  have hrs : parsedReplies ctx.parse c = [] := by
    unfold parsedReplies
    exact List.filterMap_eq_nil_iff.mpr h
  unfold stepData
  rw [hrs]
  split
  · rfl
  · have h0 : List.filterMap (fun _ => (none : Option (String × CallResult))) s.waiters = [] :=
      List.filterMap_eq_nil_iff.mpr (fun a _ => rfl)
    simp [List.find?_nil, h0]

theorem mapfst_new_log (ctx : ChildCtx) (chunk : List Char) (l : List String) :
    (l.filterMap (fun rid =>
        ((parsedReplies ctx.parse chunk).find? (fun r => r.id == rid)).map
          (fun r => (rid, settleReply ctx.riskLevel ctx.docker r)))).map Prod.fst
      = l.filter (fun rid =>
          ((parsedReplies ctx.parse chunk).find? (fun r => r.id == rid)).isSome) := by
  induction l with
  | nil => rfl
  | cons a t ih =>
    cases hga : (parsedReplies ctx.parse chunk).find? (fun r => r.id == a) <;>
      simp [List.filterMap_cons, List.filter_cons, hga, ih]

theorem stepEvent_preserves_inv (ctx : ChildCtx) (s : ChildState) (e : ChildEvent)
    (hinv : EngineInv s) : EngineInv (stepEvent ctx s e) := by
  obtain ⟨hw, hl, hwl⟩ := hinv
  cases e with
  | data chunk =>
    show EngineInv (stepData ctx s chunk)
    unfold stepData
    split
    · exact ⟨hw, hl, hwl⟩
    · refine ⟨hw.filter _, ?_, ?_⟩
      · show ((s.log ++ _).map Prod.fst).Nodup
        rw [List.map_append, mapfst_new_log]
        refine hl.append (hw.filter _) ?_
        intro a ha hb
        exact hwl a (List.mem_filter.mp hb).1 ha
      · intro rid hr
        show rid ∉ (s.log ++ _).map Prod.fst
        rw [List.map_append, mapfst_new_log]
        have hmem := List.mem_filter.mp hr
        intro hmem2
        rcases List.mem_append.mp hmem2 with hin | hin
        · exact hwl rid hmem.1 hin
        · have h3 := (List.mem_filter.mp hin).2
          have h4 := hmem.2
          simp only [Option.isNone_iff_eq_none, decide_eq_true_eq] at h4
          rw [h4] at h3
          exact Bool.noConfusion h3
  | timeoutFire rid =>
    show EngineInv (stepTimeout ctx s rid)
    unfold stepTimeout
    split
    · next hin =>
      refine ⟨hw.erase rid, ?_, ?_⟩
      · show ((s.log ++ _).map Prod.fst).Nodup
        rw [List.map_append]
        refine hl.append (List.nodup_singleton rid) ?_
        intro a ha hb
        rw [List.mem_singleton.mp hb] at ha
        exact hwl rid hin ha
      · intro w hwmem
        show w ∉ (s.log ++ _).map Prod.fst
        rw [List.map_append]
        have h5 := (hw.mem_erase_iff.mp hwmem)
        intro hmem2
        rcases List.mem_append.mp hmem2 with hin2 | hin2
        · exact hwl w h5.2 hin2
        · exact h5.1 (List.mem_singleton.mp hin2)
    · exact ⟨hw, hl, hwl⟩
  | close code => exact ⟨hw, hl, hwl⟩

theorem runEvents_preserves_inv (ctx : ChildCtx) (evs : List ChildEvent) (s : ChildState)
    (hinv : EngineInv s) : EngineInv (runEvents ctx s evs) := by
  induction evs generalizing s with
  | nil => exact hinv
  | cons e t ih => exact ih _ (stepEvent_preserves_inv ctx s e hinv)

/-! ### Claim C4 -/

/-- Claim C4: for a call whose target server has the Medium risk class,
whose method is tools/call and which carries no bypass handle, the engine
writes nothing to the child, stores a PendingInvocation under a fresh
handle, and returns the deferral object with the confirmation-required
flag, the handle, the risk class and its description, the server
identifier, the method, the tool name from params.name, and an expiry
ten minutes in the future. -/
theorem medium_risk_defers (info : ServerInfo) (ledger : Ledger)
    (serverId method : String) (params : Params) (confirmationId : Option String)
    (freshId : String) (now : Nat) (parse : List Char → Option Reply)
    (chunks : List (List Char))
    (hrisk : info.riskLevel = some RISK_LEVEL_MEDIUM)
    (hmethod : method = "tools/call")
    (htoken : jsFalsy confirmationId) :
    callWithInfo info ledger serverId method params confirmationId freshId now parse chunks
      = (.fulfilled (.deferred
          { requires_confirmation := true
            confirmation_id := freshId
            risk_level := RISK_LEVEL_MEDIUM
            risk_description := "Medium risk - Requires confirmation"
            server_id := serverId
            method := method
            tool_name := params.name
            expires_at := now + 10 * 60 * 1000 }),
         none,
         alInsert ledger freshId
           { serverId := serverId, method := method, params := params, timestamp := now }) := by
  unfold callWithInfo
  rw [if_pos ⟨hrisk, hmethod, htoken⟩]
  rfl

theorem medium_risk_defers_witness :
    callWithInfo infoMedium [] ("s") ("tools/call") c1Params none ("h1") 1000 noReply []
      = (.fulfilled (.deferred
          { requires_confirmation := true
            confirmation_id := "h1"
            risk_level := 2
            risk_description := "Medium risk - Requires confirmation"
            server_id := "s"
            method := "tools/call"
            tool_name := some "t"
            expires_at := 601000 }),
         none,
         [(("h1" : String),
           { serverId := "s", method := "tools/call", params := c1Params, timestamp := 1000 })]) :=
  medium_risk_defers infoMedium [] ("s") ("tools/call") c1Params none ("h1") 1000 noReply []
    rfl rfl (Or.inl rfl)

/-! ### Claim C7 -/

/-- Claim C7 counterexample: the bypass token is not checked purely for
presence in the JS sense of non-null — the empty string is a non-null
token value that `!confirmationId` treats as absent, so the engine defers
for token `""` but executes for token `"x"`, with all other arguments,
server state and child behavior identical. -/
theorem bypass_value_matters :
    callWithInfo infoMedium [] ("s") ("tools/call") c1Params (some "") ("f") 0 noReply []
      ≠ callWithInfo infoMedium [] ("s") ("tools/call") c1Params (some ("x")) ("f") 0 noReply [] := by
  decide

/-- Claim C7 (amended): the bypass-confirmation token is checked only for
JS truthiness, never for value: for any two non-null, non-empty token
values passed with otherwise identical arguments, server state, and child
behavior, the engine behaves identically — the Medium-risk gate is
bypassed whether or not the token names a live pending entry. (The empty
string is falsy in JS and is treated as an absent token.) -/
theorem bypass_presence_only (info : ServerInfo) (ledger : Ledger)
    (serverId method : String) (params : Params) (a b : String)
    (freshId : String) (now : Nat) (parse : List Char → Option Reply)
    (chunks : List (List Char))
    (ha : a ≠ "") (hb : b ≠ "") :
    callWithInfo info ledger serverId method params (some a) freshId now parse chunks
      = callWithInfo info ledger serverId method params (some b) freshId now parse chunks := by
  have hna : ¬ (info.riskLevel = some RISK_LEVEL_MEDIUM ∧ method = "tools/call" ∧ jsFalsy (some a)) := by
    rintro ⟨-, -, hf | hf⟩
    · exact Option.noConfusion hf
    · exact ha (Option.some.inj hf)
  have hnb : ¬ (info.riskLevel = some RISK_LEVEL_MEDIUM ∧ method = "tools/call" ∧ jsFalsy (some b)) := by
    rintro ⟨-, -, hf | hf⟩
    · exact Option.noConfusion hf
    · exact hb (Option.some.inj hf)
  unfold callWithInfo
  rw [if_neg hna, if_neg hnb]

theorem bypass_presence_only_witness :
    callWithInfo infoMedium [] ("s") ("tools/call") c1Params (some ("p")) ("f") 0 noReply []
      = callWithInfo infoMedium [] ("s") ("tools/call") c1Params (some ("q")) ("f") 0 noReply [] :=
  bypass_presence_only infoMedium [] ("s") ("tools/call") c1Params ("p") ("q") ("f") 0 noReply []
    (by decide) (by decide)

/-! ### Claim C8 -/

/-- Claim C8 counterexample: a failure to signal the child is NOT surfaced
as a 500 kill-failure error — `shutdownServer` catches the kill error and
only logs it, so the route still removes the record and answers
`{status:"disconnected"}`. -/
theorem kill_failure_not_surfaced :
    deleteServerRoute c8Reg ("s") (.throws ("kill EPERM")) = (.disconnected, []) := by
  decide

/-- Claim C8 (amended): DELETE /servers/:id returns 404 with an error
object when the identifier is not registered; otherwise it attempts the
OS default termination signal, removes the record immediately without
waiting for the exit event, and responds `{status:"disconnected"}` — even
when signalling the child fails, since that error is caught and logged,
never surfaced as a 500. -/
theorem delete_server_behavior (reg : Registry) (serverId : String) (kb : KillBehavior) :
    ((alLookup reg serverId).isSome →
      deleteServerRoute reg serverId kb = (.disconnected, alErase reg serverId)
        ∧ alLookup (alErase reg serverId) serverId = none)
    ∧ ((alLookup reg serverId).isNone →
      deleteServerRoute reg serverId kb
        = (.notFound ("Server \x27" ++ serverId ++ "\x27 not found"), reg)) := by
  constructor
  · intro hs
    constructor
    · unfold deleteServerRoute shutdownServer
      cases h : alLookup reg serverId with
      | none => rw [h] at hs; exact absurd hs (by simp)
      | some info => cases kb <;> simp [h]
    · exact alLookup_erase reg serverId
  · intro hn
    unfold deleteServerRoute
    rw [if_pos hn]

theorem delete_server_behavior_witness :
    (deleteServerRoute c8Reg ("s") (.throws ("kill EPERM"))
        = (.disconnected, alErase c8Reg ("s"))
      ∧ alLookup (alErase c8Reg ("s")) ("s") = none)
    ∧ deleteServerRoute [] ("z") .ok
        = (.notFound ("Server \x27z\x27 not found"), []) :=
  ⟨(delete_server_behavior c8Reg ("s") (.throws ("kill EPERM"))).1 (by decide),
   (delete_server_behavior [] ("z") .ok).2 (by decide)⟩

/-! ### Claim C9 -/

/-- Claim C9: for a launch specification with the High risk class, the
spawn target becomes `docker` and the argv is exactly, in order: `run`,
`--rm`, a `-e KEY=VALUE` pair per extra environment entry, a `-v BINDING`
per configured volume, `--network NAME` if configured, the image name,
then — unless the original command is npm or npx — the original command,
then the original argv. -/
theorem high_risk_docker_argv (cfg : ServerSpec) (d : DockerConfig)
    (which : String → Option String)
    (hrisk : cfg.riskLevel = some RISK_LEVEL_HIGH) (hdocker : cfg.docker = some d) :
    resolveSpawn cfg which
      = ("docker",
         ["run", "--rm"]
           ++ cfg.env.flatMap (fun kv => ["-e", kv.1 ++ "=" ++ kv.2])
           ++ (d.volumes.getD []).flatMap (fun v => ["-v", v])
           ++ (match d.network with | some n => ["--network", n] | none => [])
           ++ [d.image]
           ++ (if cfg.command ≠ "npm" ∧ cfg.command ≠ "npx" then [cfg.command] else [])
           ++ cfg.args) := by
  unfold resolveSpawn
  rw [if_pos hrisk, hdocker]
  obtain ⟨img, vols, net⟩ := d
  unfold dockerArgsOf
  cases vols <;> cases net <;>
    by_cases hc : cfg.command ≠ "npm" ∧ cfg.command ≠ "npx" <;>
      simp [foldl_push_eq_flatMap, hc, List.append_assoc]

theorem high_risk_docker_argv_witness :
    resolveSpawn c9Cfg (fun _ => none)
      = ("docker",
         ["run", "--rm", "-e", "K=V", "-e", "L=W", "-v", "h:/c", "--network", "netA",
          "img", "python", "m.py"]) :=
  high_risk_docker_argv c9Cfg c9Docker (fun _ => none) rfl rfl

/-! ### Claim C10 -/

/-- Claim C10: a call against a server whose risk class is Low (1)
produces exactly the same outcome, wire write and ledger effect as the
same call against a server whose risk class is absent, for every method,
parameter object and child behavior; the two differ only in the risk_*
metadata of the listing entries. -/
theorem low_equals_absent (info : ServerInfo) (ledger : Ledger)
    (serverId method : String) (params : Params) (confirmationId : Option String)
    (freshId : String) (now : Nat) (parse : List Char → Option Reply)
    (chunks : List (List Char)) :
    callWithInfo { info with riskLevel := some RISK_LEVEL_LOW } ledger serverId method params
        confirmationId freshId now parse chunks
      = callWithInfo { info with riskLevel := none } ledger serverId method params
        confirmationId freshId now parse chunks
    ∧ ∀ id, listEntry id { info with riskLevel := some RISK_LEVEL_LOW }
        = { listEntry id { info with riskLevel := none } with
            risk_level := some RISK_LEVEL_LOW
            risk_description := some (RISK_LEVEL_DESCRIPTION RISK_LEVEL_LOW) } := by
  constructor
  · have hlow : ¬ ((some RISK_LEVEL_LOW : Option Nat) = some RISK_LEVEL_MEDIUM
        ∧ method = "tools/call" ∧ jsFalsy confirmationId) := by
      rintro ⟨hc, -, -⟩
      exact absurd hc (by decide)
    have habs : ¬ ((none : Option Nat) = some RISK_LEVEL_MEDIUM
        ∧ method = "tools/call" ∧ jsFalsy confirmationId) := by
      rintro ⟨hc, -, -⟩
      exact Option.noConfusion hc
    unfold callWithInfo
    rw [if_neg hlow, if_neg habs]
    cases hf : (chunks.flatMap (parsedReplies parse)).find? (fun r => r.id == freshId) with
    | none => rfl
    | some r => simp [settleReply_low_absent]
  · intro id
    unfold listEntry
    simp [RISK_LEVEL_LOW, RISK_LEVEL_HIGH, RISK_LEVEL_DESCRIPTION]

/-! ### Claim C5 -/

/-- Claim C5 counterexample: a spawn failure reported through the child
object\x27s asynchronous error event does NOT leave the registry
unchanged — `serverProcesses.set` at line 308 has already run when the
Promise rejects, so the record for the identifier is still registered at
the moment the failure is reported. -/
theorem async_spawn_error_leaves_record :
    (startServer [] ("s") cfgPlain 7 (fun _ => none) (.asyncError ("spawn ENOENT"))).1
        = .failed ("spawn ENOENT")
    ∧ alLookup (startServer [] ("s") cfgPlain 7 (fun _ => none)
          (.asyncError ("spawn ENOENT"))).2 ("s")
        = some { riskLevel := none, pid := 7, config := cfgPlain } := by
  decide

/-- Claim C5 (amended): when Start fails it fails with a descriptive
message; a failure thrown synchronously during resolution or spawn
(including the High-risk missing-docker guard) leaves the registry
unchanged, but a spawn failure reported through the asynchronous error
event leaves the just-registered record in the registry at the time the
failure is reported (its removal is left to the close handler). -/
theorem start_failure_registry (reg : Registry) (serverId : String) (cfg : ServerSpec)
    (pid : Nat) (which : String → Option String) (msg : String)
    (hguard : ¬ (cfg.riskLevel = some RISK_LEVEL_HIGH ∧ cfg.docker = none)) :
    startServer reg serverId cfg pid which (.syncThrow msg) = (.failed msg, reg)
    ∧ (startServer reg serverId cfg pid which (.asyncError msg)).1 = .failed msg
    ∧ alLookup (startServer reg serverId cfg pid which (.asyncError msg)).2 serverId
        = some (startedRecord cfg pid which)
    ∧ startServer reg serverId { cfg with riskLevel := some RISK_LEVEL_HIGH, docker := none }
          pid which (.syncThrow msg)
        = (.failed ("Server " ++ serverId ++ " has HIGH risk level but no docker configuration"),
           reg) := by
  refine ⟨?_, ?_, ?_, ?_⟩
  · unfold startServer
    rw [if_neg hguard]
  · unfold startServer
    rw [if_neg hguard]
  · unfold startServer
    rw [if_neg hguard]
    exact alLookup_insert reg serverId _
  · unfold startServer
    rw [if_pos ⟨rfl, rfl⟩]

theorem start_failure_registry_witness :
    startServer [] ("s") cfgPlain 7 (fun _ => none) (.syncThrow ("boom")) = (.failed ("boom"), [])
    ∧ (startServer [] ("s") cfgPlain 7 (fun _ => none) (.asyncError ("boom"))).1 = .failed ("boom")
    ∧ alLookup (startServer [] ("s") cfgPlain 7 (fun _ => none) (.asyncError ("boom"))).2 ("s")
        = some (startedRecord cfgPlain 7 (fun _ => none))
    ∧ startServer [] ("s") { cfgPlain with riskLevel := some RISK_LEVEL_HIGH, docker := none }
          7 (fun _ => none) (.syncThrow ("boom"))
        = (.failed ("Server s has HIGH risk level but no docker configuration"), []) :=
  start_failure_registry [] ("s") cfgPlain 7 (fun _ => none) ("boom") (by decide)

/-! ### Claim C1 -/

/-- Claim C1 counterexample: a resolve call that commits does NOT always
remove the stored entry — when the replayed invocation fails (here: the
target child has vanished, so the correlation engine rejects with its
not-found error), the catch branch answers 500 and leaves the entry in
the ledger, and the subsequent POST for the same handle is processed
again instead of returning 404. -/
theorem commit_failure_keeps_entry :
    (resolveConfirmation c1Ledger ("c1") true 5 c1Replay).1
        = .serverError ("Server \x27s\x27 not found or not connected")
    ∧ (resolveConfirmation c1Ledger ("c1") true 5 c1Replay).2 = c1Ledger
    ∧ (resolveConfirmation (resolveConfirmation c1Ledger ("c1") true 5 c1Replay).2
          ("c1") true 5 c1Replay).1
        = .serverError ("Server \x27s\x27 not found or not connected") := by
  decide

/-- Claim C1 (amended): a confirmation handle is consumed by an abandon
or by a commit whose replay fulfils — in those cases the entry is removed
and every subsequent POST /confirmations referencing the handle returns
404; but a commit whose replay fails answers 500 and leaves the entry
stored, so the handle can be referenced again. -/
theorem confirmation_consumed_once (ledger : Ledger) (cid : String)
    (p : PendingInvocation) (now : Nat)
    (replay : String → String → Params → String → CallResult)
    (hp : alLookup ledger cid = some p)
    (hfresh : ¬ (now - p.timestamp > 10 * 60 * 1000)) :
    resolveConfirmation ledger cid false now replay = (.rejectedAck, alErase ledger cid)
    ∧ (∀ f, replay p.serverId p.method p.params cid = .fulfilled f →
        resolveConfirmation ledger cid true now replay = (.result f, alErase ledger cid))
    ∧ (∀ msg, replay p.serverId p.method p.params cid = .rejected msg →
        resolveConfirmation ledger cid true now replay = (.serverError msg, ledger))
    ∧ (∀ (confirm2 : Bool) (now2 : Nat)
        (replay2 : String → String → Params → String → CallResult),
        resolveConfirmation (alErase ledger cid) cid confirm2 now2 replay2
          = (.notFound ("Confirmation \x27" ++ cid ++ "\x27 not found or expired"),
             alErase ledger cid)) := by
  refine ⟨?_, ?_, ?_, ?_⟩
  · unfold resolveConfirmation
    rw [hp]
    simp [hfresh]
  · intro f hf
    unfold resolveConfirmation
    rw [hp]
    simp [hfresh, hf]
  · intro msg hmsg
    unfold resolveConfirmation
    rw [hp]
    simp [hfresh, hmsg]
  · intro confirm2 now2 replay2
    unfold resolveConfirmation
    rw [alLookup_erase ledger cid]

theorem confirmation_consumed_once_witness :
    resolveConfirmation c1Ledger ("c1") false 5 c1Replay = (.rejectedAck, alErase c1Ledger ("c1"))
    ∧ (∀ f, c1Replay c1Pending.serverId c1Pending.method c1Pending.params ("c1") = .fulfilled f →
        resolveConfirmation c1Ledger ("c1") true 5 c1Replay = (.result f, alErase c1Ledger ("c1")))
    ∧ (∀ msg, c1Replay c1Pending.serverId c1Pending.method c1Pending.params ("c1") = .rejected msg →
        resolveConfirmation c1Ledger ("c1") true 5 c1Replay = (.serverError msg, c1Ledger))
    ∧ (∀ (confirm2 : Bool) (now2 : Nat)
        (replay2 : String → String → Params → String → CallResult),
        resolveConfirmation (alErase c1Ledger ("c1")) ("c1") confirm2 now2 replay2
          = (.notFound ("Confirmation \x27c1\x27 not found or expired"),
             alErase c1Ledger ("c1"))) :=
  confirmation_consumed_once c1Ledger ("c1") c1Pending 5 c1Replay (by decide) (by decide)

/-! ### Claim C2 -/

/-- Claim C2 counterexample: upon the child\x27s exit event, the record is
removed from the registry while the outstanding request is still
unresolved — nothing is logged for it, it stays registered as a waiter,
and it is later resolved by the ten-second timer with the timeout error,
not with the child\x27s exit information. -/
theorem child_exit_resolves_nothing :
    (stepEvent cexCtx cexChild0 (.close 1)).registered = false
    ∧ (stepEvent cexCtx cexChild0 (.close 1)).waiters = ["r"]
    ∧ (stepEvent cexCtx cexChild0 (.close 1)).log = []
    ∧ (stepTimeout cexCtx (stepEvent cexCtx cexChild0 (.close 1)) ("r")).log
        = [(("r" : String), .rejected (timeoutMessage ("s")))] := by
  decide

/-- Claim C2 (amended): upon a child\x27s exit the ServerRecord is removed
from the registry, but no OutstandingRequest for that child is resolved
by the exit event — every waiter stays registered with nothing logged,
and an in-flight caller only receives a failure when its ten-second timer
fires, carrying the timeout message rather than the exit information. -/
theorem close_leaves_waiters (ctx : ChildCtx) (s : ChildState) (code : Int) (rid : String)
    (hrid : rid ∈ s.waiters) :
    (stepEvent ctx s (.close code)).waiters = s.waiters
    ∧ (stepEvent ctx s (.close code)).log = s.log
    ∧ (stepEvent ctx s (.close code)).registered = false
    ∧ (stepTimeout ctx (stepEvent ctx s (.close code)) rid).log
        = s.log ++ [(rid, .rejected (timeoutMessage ctx.serverId))] := by
  refine ⟨rfl, rfl, rfl, ?_⟩
  show (stepTimeout ctx (stepClose s) rid).log = _
  unfold stepTimeout
  rw [if_pos (show rid ∈ (stepClose s).waiters from hrid)]
  rfl

theorem close_leaves_waiters_witness :
    (stepEvent cexCtx cexChild0 (.close 0)).waiters = cexChild0.waiters
    ∧ (stepEvent cexCtx cexChild0 (.close 0)).log = cexChild0.log
    ∧ (stepEvent cexCtx cexChild0 (.close 0)).registered = false
    ∧ (stepTimeout cexCtx (stepEvent cexCtx cexChild0 (.close 0)) ("r")).log
        = cexChild0.log ++ [(("r" : String), .rejected (timeoutMessage cexCtx.serverId))] :=
  close_leaves_waiters cexCtx cexChild0 0 ("r") (by decide)

/-! ### Claim C3 -/

/-- Claim C3 counterexample: the inbound handler does NOT preserve
unflushed tail bytes between arrivals. The same newline-terminated record
resolves the waiting caller when it arrives in one chunk, but when the
identical byte sequence is delivered as two chunks, neither fragment
parses, nothing is surfaced, and the waiter is left pending. -/
theorem split_record_not_surfaced :
    cexChunk1 ++ cexChunk2 = cexRecord.data ++ ['\n']
    ∧ (runEvents cexCtx cexChild0 [.data (cexRecord.data ++ ['\n'])]).log
        = [(("r" : String), .fulfilled (.ok ("1")))]
    ∧ (runEvents cexCtx cexChild0 [.data cexChunk1, .data cexChunk2]).log = []
    ∧ (runEvents cexCtx cexChild0 [.data cexChunk1, .data cexChunk2]).waiters = ["r"] := by
  decide

/-- Claim C3 (amended): each stdout arrival is split on newline
boundaries and parsed in isolation — the handler keeps no buffer between
arrivals, so a record split across two arrivals whose fragments do not
parse on their own is never surfaced, while a record complete within a
single arrival is parsed and delivered to the waiting caller. -/
theorem chunk_local_parsing (ctx : ChildCtx) (s : ChildState) (c1 c2 : List Char)
    (h1 : ∀ l ∈ splitLines c1, ctx.parse l = none)
    (h2 : ∀ l ∈ splitLines c2, ctx.parse l = none) :
    runEvents ctx s [.data c1, .data c2] = s
    ∧ (∀ chunk rid r, s.closed = false → rid ∈ s.waiters →
        (parsedReplies ctx.parse chunk).find? (fun x => x.id == rid) = some r →
        (rid, settleReply ctx.riskLevel ctx.docker r) ∈ (stepData ctx s chunk).log) := by
  constructor
  · show stepData ctx (stepData ctx s c1) c2 = s
    rw [stepData_no_replies ctx s c1 h1, stepData_no_replies ctx s c2 h2]
  · intro chunk rid r hclosed hrid hfind
    have hnc : ¬ (s.closed = true) := by simp [hclosed]
    unfold stepData
    rw [if_neg hnc]
    refine List.mem_append.mpr (Or.inr ?_)
    refine List.mem_filterMap.mpr ⟨rid, hrid, ?_⟩
    rw [hfind]
    rfl

theorem chunk_local_parsing_witness :
    runEvents cexCtx cexChild0 [.data ['x'], .data ['y']] = cexChild0
    ∧ (∀ chunk rid r, cexChild0.closed = false → rid ∈ cexChild0.waiters →
        (parsedReplies cexCtx.parse chunk).find? (fun x => x.id == rid) = some r →
        (rid, settleReply cexCtx.riskLevel cexCtx.docker r)
          ∈ (stepData cexCtx cexChild0 chunk).log) :=
  chunk_local_parsing cexCtx cexChild0 ['x'] ['y'] (by decide) (by decide)

/-! ### Claim C6 -/

/-- Claim C6: inbound replies are routed purely by their id field. With
distinct outstanding request ids, a waiter whose id is matched by a
parsed reply of an arrival is deregistered and its slot filled with that
reply (whose id equals its own); a waiter with no matching reply stays
registered; log entries only ever arise for registered waiters, so a
reply arriving after its waiter was deregistered (e.g. by timeout) is
silently discarded; an arrival matching no waiter changes nothing; and
across any event sequence the engine invariant holds — in particular no
slot is ever resolved twice. -/
theorem reply_routing_by_id (ctx : ChildCtx) (s : ChildState) (hinv : EngineInv s) :
    (∀ evs, EngineInv (runEvents ctx s evs))
    ∧ (∀ chunk rid r, s.closed = false → rid ∈ s.waiters →
        (parsedReplies ctx.parse chunk).find? (fun x => x.id == rid) = some r →
        r.id = rid
        ∧ rid ∉ (stepData ctx s chunk).waiters
        ∧ (rid, settleReply ctx.riskLevel ctx.docker r) ∈ (stepData ctx s chunk).log)
    ∧ (∀ chunk rid, rid ∈ s.waiters →
        (parsedReplies ctx.parse chunk).find? (fun x => x.id == rid) = none →
        rid ∈ (stepData ctx s chunk).waiters)
    ∧ (∀ chunk rid c, (rid, c) ∈ (stepData ctx s chunk).log →
        (rid, c) ∈ s.log ∨ rid ∈ s.waiters)
    ∧ (∀ chunk, s.closed = false →
        (∀ x ∈ parsedReplies ctx.parse chunk, ∀ rid ∈ s.waiters, x.id ≠ rid) →
        stepData ctx s chunk = s) := by
  refine ⟨fun evs => runEvents_preserves_inv ctx evs s hinv, ?_, ?_, ?_, ?_⟩
  · intro chunk rid r hclosed hrid hfind
    have hnc : ¬ (s.closed = true) := by simp [hclosed]
    refine ⟨?_, ?_, ?_⟩
    · have hp := List.find?_some hfind
      simpa using hp
    · unfold stepData
      rw [if_neg hnc]
      intro hmem
      have h6 := (List.mem_filter.mp hmem).2
      rw [hfind] at h6
      exact Bool.noConfusion h6
    · unfold stepData
      rw [if_neg hnc]
      refine List.mem_append.mpr (Or.inr ?_)
      refine List.mem_filterMap.mpr ⟨rid, hrid, ?_⟩
      rw [hfind]
      rfl
  · intro chunk rid hrid hfind
    unfold stepData
    split
    · exact hrid
    · refine List.mem_filter.mpr ⟨hrid, ?_⟩
      rw [hfind]
      rfl
  · intro chunk rid c hmem
    unfold stepData at hmem
    split at hmem
    · exact Or.inl hmem
    · rcases List.mem_append.mp hmem with hin | hin
      · exact Or.inl hin
      · obtain ⟨a, ha, heq⟩ := List.mem_filterMap.mp hin
        cases hfa : (parsedReplies ctx.parse chunk).find? (fun r => r.id == a) with
        | none => rw [hfa] at heq; exact Option.noConfusion heq
        | some rr =>
          rw [hfa] at heq
          have h7 : a = rid := congrArg Prod.fst (Option.some.inj heq)
          rw [h7] at ha
          exact Or.inr ha
  · intro chunk hclosed hnomatch
    have hnc : ¬ (s.closed = true) := by simp [hclosed]
    have hfind : ∀ rid ∈ s.waiters,
        (parsedReplies ctx.parse chunk).find? (fun x => x.id == rid) = none := by
      intro rid hrid
      apply List.find?_eq_none.mpr
      intro x hx
      simpa using hnomatch x hx rid hrid
    unfold stepData
    rw [if_neg hnc]
    have hw : s.waiters.filter (fun rid =>
        ((parsedReplies ctx.parse chunk).find? (fun r => r.id == rid)).isNone) = s.waiters :=
      List.filter_eq_self.mpr (fun a ha => by rw [hfind a ha]; rfl)
    have hlg : s.waiters.filterMap (fun rid =>
        ((parsedReplies ctx.parse chunk).find? (fun r => r.id == rid)).map
          (fun r => (rid, settleReply ctx.riskLevel ctx.docker r))) = [] :=
      List.filterMap_eq_nil_iff.mpr (fun a ha => by rw [hfind a ha]; rfl)
    rw [hw, hlg, List.append_nil]

theorem reply_routing_by_id_witness :
    (∀ evs, EngineInv (runEvents cexCtx cexChild0 evs))
    ∧ (∀ chunk rid r, cexChild0.closed = false → rid ∈ cexChild0.waiters →
        (parsedReplies cexCtx.parse chunk).find? (fun x => x.id == rid) = some r →
        r.id = rid
        ∧ rid ∉ (stepData cexCtx cexChild0 chunk).waiters
        ∧ (rid, settleReply cexCtx.riskLevel cexCtx.docker r)
            ∈ (stepData cexCtx cexChild0 chunk).log)
    ∧ (∀ chunk rid, rid ∈ cexChild0.waiters →
        (parsedReplies cexCtx.parse chunk).find? (fun x => x.id == rid) = none →
        rid ∈ (stepData cexCtx cexChild0 chunk).waiters)
    ∧ (∀ chunk rid c, (rid, c) ∈ (stepData cexCtx cexChild0 chunk).log →
        (rid, c) ∈ cexChild0.log ∨ rid ∈ cexChild0.waiters)
    ∧ (∀ chunk, cexChild0.closed = false →
        (∀ x ∈ parsedReplies cexCtx.parse chunk, ∀ rid ∈ cexChild0.waiters, x.id ≠ rid) →
        stepData cexCtx cexChild0 chunk = cexChild0) :=
  reply_routing_by_id cexCtx cexChild0 (by decide)

end MCPBridge
